import Mathlib

/-!
# IDAStealth: the debugger-concealment plugin core (`IDAStealth.cpp`)

A shallow embedding of the functions of `src/IDAStealth/IDAStealth.cpp`:
`setExceptionOptions`, `handleDebugException`, `callback`,
`DbgUiConvStateChngStructHook`, `DebugActiveProcessHook` and `localStealth`.

Stateful code is written as explicit state passing.  Everything the plugin
calls but does not define (the IDA kernel, the Win32 API, the hook library and
the session object) is either a parameter of the embedded function or a small
model of the documented interface, and every call made to it is appended to a
chronological call list so that "is called", "exactly once" and "before" can
be stated.  32-bit machine words are natural numbers below `2 ^ 32`.
-/

namespace IDAStealth

/-! ## Constants of the IDA SDK and of the Windows headers

The plugin is compiled against headers that are not part of its sources.  The
constants it takes from them are parameters of the embedding; the values the
headers give them are recorded in `idaSdk` and `winSdk`. -/

/-- The IDA SDK constants used by the plugin (`dbg.hpp`): the three values of the
exception-dialog field of the debugger options, and the five notification codes
of `dbg_notification_t` that `callback` dispatches on. -/
structure IdaConstants where
  EXCDLG_NEVER : Nat
  EXCDLG_UNKNOWN : Nat
  EXCDLG_ALWAYS : Nat
  dbg_process_start : Int
  dbg_process_exit : Int
  dbg_process_attach : Int
  dbg_exception : Int
  dbg_bpt : Int
deriving DecidableEq, Repr

/-- The values in the IDA SDK header `dbg.hpp`. -/
def idaSdk : IdaConstants :=
  { EXCDLG_NEVER := 0x00000000
    EXCDLG_UNKNOWN := 0x00002000
    EXCDLG_ALWAYS := 0x00006000
    dbg_process_start := 1
    dbg_process_exit := 2
    dbg_process_attach := 3
    dbg_exception := 10
    dbg_bpt := 12 }

/-- The Windows constants used by the plugin. -/
structure WinConstants where
  INVALID_HANDLE_VALUE : Nat
  PROCESS_ALL_ACCESS : Nat
  PAGE_READWRITE : Nat
  DBG_PRINTEXCEPTION_C : Nat
  DbgReplyPending : Nat
deriving DecidableEq, Repr

/-- The values in the 32-bit Windows headers: `INVALID_HANDLE_VALUE` is
`(HANDLE)-1`, `DbgReplyPending` is the second member of `DBG_STATE`. -/
def winSdk : WinConstants :=
  { INVALID_HANDLE_VALUE := 0xFFFFFFFF
    PROCESS_ALL_ACCESS := 0x1F0FFF
    PAGE_READWRITE := 0x04
    DBG_PRINTEXCEPTION_C := 0x40010006
    DbgReplyPending := 1 }

/-! ## The host (IDA kernel) interface -/

/-- The C operator `~` on a 32-bit `uint`. -/
def not32 (x : Nat) : Nat := 0xFFFFFFFF ^^^ (x % 2 ^ 32)

/-- An entry of the host's list of known exceptions (`exception_info_t`): the
`uint code` the plugin reads, and the description. -/
structure exception_info_t where
  code : Nat
  desc : String
deriving DecidableEq, Repr

/-- A call made to the IDA kernel. -/
inductive HostCall where
  | set_debugger_options (options : Nat)
  | retrieve_exceptions
  | msg (text : String)
deriving DecidableEq, Repr

/-- The part of the IDA kernel the plugin talks to: the debugger option word,
the user-editable list of known exceptions, and the calls received so far
(oldest first). -/
structure Host where
  debugger_options : Nat
  exceptions : List exception_info_t
  calls : List HostCall
deriving DecidableEq, Repr

/-- IDA's `set_debugger_options(options)`: replaces the debugger option word and
returns the previous one. -/
def set_debugger_options (options : Nat) (h : Host) : Nat × Host :=
  (h.debugger_options,
    { h with debugger_options := options,
             calls := h.calls ++ [HostCall.set_debugger_options options] })

/-- IDA's `retrieve_exceptions()`: the current list of known exceptions. -/
def retrieve_exceptions (h : Host) : List exception_info_t × Host :=
  (h.exceptions, { h with calls := h.calls ++ [HostCall.retrieve_exceptions] })

/-- IDA's `msg(text)`: prints to the message window, the diagnostic sink. -/
def msg (text : String) (h : Host) : Host :=
  { h with calls := h.calls ++ [HostCall.msg text] }

/-- The diagnostic messages among a list of host calls, in order. -/
def messages : List HostCall → List String
  | [] => []
  | HostCall.msg text :: rest => text :: messages rest
  | _ :: rest => messages rest

/-! ## Configuration and events -/

/-- What a C++ `throw` carries, as far as the two `catch` clauses of `callback`
tell it apart: a `std::exception` with its `what()` text, or anything else. -/
inductive Thrown where
  | std_exception (what : String)
  | other
deriving DecidableEq, Repr

/-- The options of `HideDebuggerConfig` read by this file. -/
structure HideDebuggerConfig where
  getDbgPrintException : Bool
  getKillAntiAttach : Bool
  getPassExceptions : Bool
  getCurrentProfile : String
  getDefaultConfigFile : String
deriving DecidableEq, Repr

/-- The fields of `debug_event_t` read by this file: `pid`, `exc.code` (an `int`)
and `modinfo.base`. -/
structure debug_event_t where
  pid : Nat
  exc_code : Int
  modinfo_base : Nat
deriving DecidableEq, Repr

/-- The C cast `(int)x` of a 32-bit `uint`: two's-complement reinterpretation. -/
def int32 (x : Nat) : Int :=
  if x % 2 ^ 32 < 2 ^ 31 then ((x % 2 ^ 32 : Nat) : Int) else ((x % 2 ^ 32 : Nat) : Int) - 2 ^ 32

/-! ## `setExceptionOptions` and `handleDebugException` -/

/-- Source `setExceptionOptions`: read the option word (by setting it to 0), clear
the exception-dialog field, put `EXCDLG_NEVER` or `EXCDLG_UNKNOWN` there, write it back. -/
def setExceptionOptions (k : IdaConstants) (ignoreException : Bool) (h : Host) : Host :=
  let r := set_debugger_options 0 h
  let oldSettings := r.1 &&& not32 (k.EXCDLG_ALWAYS ||| k.EXCDLG_UNKNOWN)
  let newSettings :=
    if ignoreException then oldSettings ||| k.EXCDLG_NEVER else oldSettings ||| k.EXCDLG_UNKNOWN
  (set_debugger_options newSettings r.2).2

/-- The `BOOST_FOREACH` loop of `handleDebugException`: walks the known exceptions
in order, carrying `ignoreException`; on the first entry whose code, cast to
`int`, equals the event's code it sets the flag to `false` and breaks. -/
def scanKnownExceptions (code : Int) (ignoreException : Bool) : List exception_info_t → Bool
  | [] => ignoreException
  | exInfo :: rest =>
    if code = int32 exInfo.code then false
    else scanKnownExceptions code ignoreException rest

/-- Source `handleDebugException`.  `getInstance` is the outcome of
`HideDebuggerConfig::getInstance()` (the configuration, or what it threw).  The
result is what the function threw, if anything, and the host afterwards. -/
def handleDebugException (k : IdaConstants) (getInstance : Except Thrown HideDebuggerConfig)
    (dbgEvent : debug_event_t) (h : Host) : Option Thrown × Host :=
  match getInstance with
  | Except.error t => (some t, h)
  | Except.ok config =>
    if config.getPassExceptions then
      let r := retrieve_exceptions h
      let ignoreException := scanKnownExceptions dbgEvent.exc_code true r.1
      (none, setExceptionOptions k ignoreException r.2)
    else (none, h)

/-! ## The session object and `callback` -/

/-- What a notification is handled in: the host, and the state of the
file-level object `session_`. -/
structure Plugin (S : Type) where
  host : Host
  session : S

/-- The four methods of `session_` (class `LocalStealthSession`, declared in a
header outside the sources) that `callback` calls.  Each may change the session and
the host, and may throw. -/
structure LocalStealthSession (S : Type) where
  handleDbgAttach : Nat → String → String → Plugin S → Option Thrown × Plugin S
  handleProcessStart : Nat → Nat → String → String → Plugin S → Option Thrown × Plugin S
  handleProcessExit : Plugin S → Option Thrown × Plugin S
  handleBreakPoint : Nat → Nat → Plugin S → Option Thrown × Plugin S

/-- The arguments a notification carries in its `va_list`: the `debug_event_t`
of the event notifications, and the thread id and address of `dbg_bpt`. -/
structure va_list where
  dbgEvent : debug_event_t
  tid : Nat
  breakpoint_ea : Nat
deriving DecidableEq, Repr

/-- The `try` block of `callback`: the `switch` on the notification code.  The
result is what was thrown inside the block, if anything, and the state at that
point. -/
def callbackTry {S : Type} (k : IdaConstants) (session_ : LocalStealthSession S)
    (getInstance : Except Thrown HideDebuggerConfig)
    (notification_code : Int) (va : va_list) (p : Plugin S) : Option Thrown × Plugin S :=
  match getInstance with
  | Except.error t => (some t, p)
  | Except.ok config =>
    if notification_code = k.dbg_process_attach then
      session_.handleDbgAttach va.dbgEvent.pid config.getDefaultConfigFile
        config.getCurrentProfile p
    else if notification_code = k.dbg_process_start then
      session_.handleProcessStart va.dbgEvent.pid va.dbgEvent.modinfo_base
        config.getDefaultConfigFile config.getCurrentProfile p
    else if notification_code = k.dbg_process_exit then
      session_.handleProcessExit p
    else if notification_code = k.dbg_bpt then
      session_.handleBreakPoint va.tid va.breakpoint_ea p
    else if notification_code = k.dbg_exception then
      let r := handleDebugException k getInstance va.dbgEvent p.host
      (r.1, { p with host := r.2 })
    else (none, p)

/-- Source `callback`: the `try` block, the two `catch` clauses, `return 0`.  The
first component is the value returned to the host, or the exception that
escapes to it. -/
def callback {S : Type} (k : IdaConstants) (session_ : LocalStealthSession S)
    (getInstance : Except Thrown HideDebuggerConfig)
    (notification_code : Int) (va : va_list) (p : Plugin S) : Except Thrown Int × Plugin S :=
  let r := callbackTry k session_ getInstance notification_code va p
  match r.1 with
  | none => (Except.ok 0, r.2)
  | some (Thrown.std_exception what) =>
    (Except.ok 0,
      { r.2 with host := msg ("IDAStealth: Error in IDA callback: " ++ what ++ "\n") r.2.host })
  | some Thrown.other =>
    (Except.ok 0,
      { r.2 with host := msg "IDAStealth: Unknown error (this should never happen!)\n" r.2.host })

/-- One notification delivered by the host. -/
structure Notification where
  notification_code : Int
  va : va_list
deriving DecidableEq, Repr

/-- The host delivering a sequence of notifications to `callback`, one after the other. -/
def deliver {S : Type} (k : IdaConstants) (session_ : LocalStealthSession S)
    (getInstance : Except Thrown HideDebuggerConfig) : List Notification → Plugin S → Plugin S
  | [], p => p
  | n :: rest, p =>
    deliver k session_ getInstance rest
      (callback k session_ getInstance n.notification_code n.va p).2

/-- Modelled from the spec: the lifecycle state of the concealment session
(`LocalStealthSession`, whose header and implementation are not among the
sources).  Section 3: one of Idle, Attached, Started, Exited; it holds the target
process id, the target module base once known, and the configuration snapshot
(config file and profile name). -/
inductive SessionState where
  | Idle
  | Attached (pid : Nat) (configFile profile : String)
  | Started (pid base : Nat) (configFile profile : String)
  | Exited
deriving DecidableEq, Repr

/-- Modelled from the spec: the transitions of section 4.4 as the methods of
`session_`.  attach: Idle → Attached; process-start: Attached → Started, recording
the module base; breakpoint: purely observational; exit: Started → Exited and
Attached → Exited.  A method called off the graph changes nothing. -/
def specSession : LocalStealthSession SessionState :=
  { handleDbgAttach := fun pid configFile profile p =>
      match p.session with
      | SessionState.Idle => (none, { p with session := SessionState.Attached pid configFile profile })
      | _ => (none, p)
    handleProcessStart := fun _ base _ _ p =>
      match p.session with
      | SessionState.Attached pid configFile profile =>
        (none, { p with session := SessionState.Started pid base configFile profile })
      | _ => (none, p)
    handleProcessExit := fun p =>
      match p.session with
      | SessionState.Attached _ _ _ => (none, { p with session := SessionState.Exited })
      | SessionState.Started _ _ _ _ => (none, { p with session := SessionState.Exited })
      | _ => (none, p)
    handleBreakPoint := fun _ _ p => (none, p) }

/-- Modelled from the spec: a session exists for a process while the state is
Attached or Started (created on attach, destroyed on the matching exit). -/
def SessionState.live : SessionState → Bool
  | SessionState.Attached _ _ _ => true
  | SessionState.Started _ _ _ _ => true
  | _ => false

/-! ## `DbgUiConvStateChngStructHook` -/

/-- The fields of `DBGUI_WAIT_STATE_CHANGE` the hook reads: the new state, the
client id of the reporting thread, and
`StateInfo.Exception.ExceptionRecord.ExceptionCode`. -/
structure DBGUI_WAIT_STATE_CHANGE where
  NewState : Nat
  UniqueProcess : Nat
  UniqueThread : Nat
  ExceptionCode : Nat
deriving DecidableEq, Repr

/-- Win32 `DEBUG_EVENT`: the three header fields, and the event-specific union `u`. -/
structure DEBUG_EVENT where
  dwDebugEventCode : Nat
  dwProcessId : Nat
  dwThreadId : Nat
  u : List Nat
deriving DecidableEq, Repr

/-- What one call of the debug-wait hook does: the `NTSTATUS` it returns, the
debug event it leaves behind, and the calls it made to the original function. -/
structure ConvertResult where
  status : Nat
  DebugEvent : DEBUG_EVENT
  origCalls : List (DBGUI_WAIT_STATE_CHANGE × DEBUG_EVENT)
deriving DecidableEq, Repr

/-- Source `DbgUiConvStateChngStructHook`.  `origDbgUiConvStateChngStruct` is the
saved original `DbgUiConvertStateChangeStructure`, which returns a status and
fills in the debug event.  `WaitStateChange` is `none` when the pointer cannot be
read: the read inside `__try` then faults and the `__except` handler returns 0.
The casts `(DWORD)` of the client id keep the low 32 bits. -/
def DbgUiConvStateChngStructHook (w : WinConstants)
    (origDbgUiConvStateChngStruct : DBGUI_WAIT_STATE_CHANGE → DEBUG_EVENT → Nat × DEBUG_EVENT)
    (WaitStateChange : Option DBGUI_WAIT_STATE_CHANGE) (DebugEvent : DEBUG_EVENT) :
    ConvertResult :=
  match WaitStateChange with
  | none => { status := 0, DebugEvent := DebugEvent, origCalls := [] }
  | some wsc =>
    if wsc.ExceptionCode = w.DBG_PRINTEXCEPTION_C then
      { status := 0
        DebugEvent :=
          { DebugEvent with
            dwProcessId := wsc.UniqueProcess % 2 ^ 32
            dwThreadId := wsc.UniqueThread % 2 ^ 32
            dwDebugEventCode := w.DbgReplyPending }
        origCalls := [] }
    else
      let r := origDbgUiConvStateChngStruct wsc DebugEvent
      { status := r.1, DebugEvent := r.2, origCalls := [(wsc, DebugEvent)] }

/-! ## The Win32 interface and `DebugActiveProcessHook` -/

/-- A call made by `DebugActiveProcessHook`, with its arguments.  For
`VirtualProtectEx` the last argument records whether `lpflOldProtect` points to a
variable (`true`) or is `NULL` (`false`). -/
inductive Win32Call where
  | GetModuleHandle (lpModuleName : String)
  | OpenProcess (dwDesiredAccess : Nat) (bInheritHandle : Bool) (dwProcessId : Nat)
  | VirtualProtectEx (hProcess lpAddress dwSize flNewProtect : Nat) (lpflOldProtect : Bool)
  | WriteProcessMemory (hProcess lpBaseAddress lpBuffer nSize : Nat)
  | CloseHandle (hObject : Nat)
  | msg (text : String)
  | origDebugActiveProcess (dwProcessId : Nat)
deriving DecidableEq, Repr

/-- The three fields of `IMAGE_OPTIONAL_HEADER` the hook reads. -/
structure IMAGE_OPTIONAL_HEADER where
  BaseOfCode : Nat
  ImageBase : Nat
  SizeOfCode : Nat
deriving DecidableEq, Repr

/-- The outcomes of the operating-system calls during one run of the hook.
`GetModuleHandle` gives the module base, `NULL` (0) when the module is not
loaded; `peHeaders` is reading the DOS and NT headers through a module pointer in
the controller's own memory, `none` when that read is an access violation;
`OpenProcess` gives a handle, `NULL` (0) on failure; `protectGranted` tells
whether the system grants a protection change on the target; `WriteProcessMemory`
tells whether the remote write succeeds; `origDebugActiveProcess` is the result of
the original attach function. -/
structure Win32 where
  GetModuleHandle : String → Nat
  peHeaders : Nat → Option IMAGE_OPTIONAL_HEADER
  OpenProcess : Nat → Bool → Nat → Nat
  protectGranted : Nat → Nat → Nat → Nat → Bool
  WriteProcessMemory : Nat → Nat → Nat → Nat → Bool
  origDebugActiveProcess : Nat → Nat

/-- The state the hook acts on: the current protection of the target's code
region, and the calls made so far (oldest first). -/
structure Target where
  protection : Nat
  calls : List Win32Call
deriving DecidableEq, Repr

/-- Win32 `VirtualProtectEx` as documented: "lpflOldProtect: a pointer to a
variable that receives the previous access protection [...]. If this parameter is
NULL or does not point to a valid variable, the function fails."  On success the
region takes the new protection and the previous one is stored (`some old`); on
failure nothing changes (`none`). -/
def VirtualProtectEx (os : Win32) (hProcess lpAddress dwSize flNewProtect : Nat)
    (lpflOldProtect : Bool) (t : Target) : Option Nat × Target :=
  let t1 : Target :=
    { t with calls := t.calls ++
        [Win32Call.VirtualProtectEx hProcess lpAddress dwSize flNewProtect lpflOldProtect] }
  if lpflOldProtect && os.protectGranted hProcess lpAddress dwSize flNewProtect then
    (some t.protection, { t1 with protection := flNewProtect })
  else (none, t1)

/-- Appends a call to the call list. -/
def Target.log (c : Win32Call) (t : Target) : Target :=
  { t with calls := t.calls ++ [c] }

/-- Source `DebugActiveProcessHook`.  The result is the `BOOL` returned, or `none`
when the hook raises an access violation instead of returning (reading the
headers through a pointer that is not readable), and the state afterwards. -/
def DebugActiveProcessHook (w : WinConstants) (os : Win32) (dwProcessId : Nat)
    (t : Target) : Option Nat × Target :=
  let chain := fun (t : Target) =>
    (some (os.origDebugActiveProcess dwProcessId),
      t.log (Win32Call.origDebugActiveProcess dwProcessId))
  let hNtDll := os.GetModuleHandle "ntdll.dll"
  let t1 := t.log (Win32Call.GetModuleHandle "ntdll.dll")
  if hNtDll ≠ w.INVALID_HANDLE_VALUE then
    match os.peHeaders hNtDll with
    | none => (none, t1)
    | some OptionalHeader =>
      let base := (OptionalHeader.BaseOfCode + OptionalHeader.ImageBase) % 2 ^ 32
      let hProcess := os.OpenProcess w.PROCESS_ALL_ACCESS false dwProcessId
      let t2 := t1.log (Win32Call.OpenProcess w.PROCESS_ALL_ACCESS false dwProcessId)
      if hProcess ≠ 0 then
        let codeSize := OptionalHeader.SizeOfCode
        let r := VirtualProtectEx os hProcess base codeSize w.PAGE_READWRITE true t2
        match r.1 with
        | some oldProtect =>
          let written := os.WriteProcessMemory hProcess base base codeSize
          let t3 := r.2.log (Win32Call.WriteProcessMemory hProcess base base codeSize)
          let t4 :=
            if !written then
              t3.log (Win32Call.msg "IDAStealth: Error while writing to process (KillAntiAttach)\n")
            else t3
          let t5 := (VirtualProtectEx os hProcess base codeSize oldProtect false t4).2
          chain (t5.log (Win32Call.CloseHandle hProcess))
        | none => chain (r.2.log (Win32Call.CloseHandle hProcess))
      else chain t2
  else chain t1

/-- The diagnostic messages among a list of Win32-side calls, in order. -/
def diagnostics : List Win32Call → List String
  | [] => []
  | Win32Call.msg text :: rest => text :: diagnostics rest
  | _ :: rest => diagnostics rest

/-! ## `localStealth` -/

/-- The two replacement functions this file hands to the hook library. -/
inductive HookFunction where
  | DbgUiConvStateChngStructHook
  | DebugActiveProcessHook
deriving DecidableEq, Repr

/-- A request made to the hook library object `nCodeHook_`. -/
inductive NCodeHookCall where
  | createHookByName (dll funcName : String) (newFunc : HookFunction)
  | removeHook (newFunc : HookFunction)
deriving DecidableEq, Repr

/-- The behaviour of `nCodeHook_` (class `NCodeHookIA32`, from a library outside the
sources) during one run: `createHookByName` returns the original entry or
throws (`init` catches `std::exception` around `localStealth`), `removeHook`
returns or throws. -/
structure NCodeHook where
  createHookByName : String → String → HookFunction → Except Thrown Nat
  removeHook : HookFunction → Option Thrown

/-- The file-level variables `origDbgUiConvStateChngStruct` and
`origDebugActiveProcess`, and the requests made to `nCodeHook_` so far (oldest
first). -/
structure Globals where
  origDbgUiConvStateChngStruct : Nat
  origDebugActiveProcess : Nat
  hookCalls : List NCodeHookCall
deriving DecidableEq, Repr

/-- The first `if`/`else` of `localStealth`: the debug-wait hook. -/
def localStealthDbgPrint (config : HideDebuggerConfig) (nCodeHook_ : NCodeHook)
    (g : Globals) : Option Thrown × Globals :=
  if config.getDbgPrintException then
    let g1 : Globals :=
      { g with hookCalls := g.hookCalls ++
          [NCodeHookCall.createHookByName "ntdll.dll" "DbgUiConvertStateChangeStructure"
            HookFunction.DbgUiConvStateChngStructHook] }
    match nCodeHook_.createHookByName "ntdll.dll" "DbgUiConvertStateChangeStructure"
        HookFunction.DbgUiConvStateChngStructHook with
    | Except.ok orig => (none, { g1 with origDbgUiConvStateChngStruct := orig })
    | Except.error e => (some e, g1)
  else
    (nCodeHook_.removeHook HookFunction.DbgUiConvStateChngStructHook,
      { g with hookCalls := g.hookCalls ++
          [NCodeHookCall.removeHook HookFunction.DbgUiConvStateChngStructHook] })

/-- The second `if`/`else` of `localStealth`: the attach-entry hook. -/
def localStealthKillAntiAttach (config : HideDebuggerConfig) (nCodeHook_ : NCodeHook)
    (g : Globals) : Option Thrown × Globals :=
  if config.getKillAntiAttach then
    let g1 : Globals :=
      { g with hookCalls := g.hookCalls ++
          [NCodeHookCall.createHookByName "kernel32.dll" "DebugActiveProcess"
            HookFunction.DebugActiveProcessHook] }
    match nCodeHook_.createHookByName "kernel32.dll" "DebugActiveProcess"
        HookFunction.DebugActiveProcessHook with
    | Except.ok orig => (none, { g1 with origDebugActiveProcess := orig })
    | Except.error e => (some e, g1)
  else
    (nCodeHook_.removeHook HookFunction.DebugActiveProcessHook,
      { g with hookCalls := g.hookCalls ++
          [NCodeHookCall.removeHook HookFunction.DebugActiveProcessHook] })

/-- Source `localStealth`, given the configuration `getInstance()` returned: the
two statements in order; an exception thrown by the first leaves the function
before the second.  The result is what was thrown, if anything, and the
variables afterwards. -/
def localStealth (config : HideDebuggerConfig) (nCodeHook_ : NCodeHook)
    (g : Globals) : Option Thrown × Globals :=
  let r := localStealthDbgPrint config nCodeHook_ g
  match r.1 with
  | some e => (some e, r.2)
  | none => localStealthKillAntiAttach config nCodeHook_ r.2

/-! ## Concrete inputs and the claims under test -/

/-- A session object whose attach handler throws a `std::exception` and whose
process-start handler throws something else. -/
def throwingSession : LocalStealthSession Unit :=
  { handleDbgAttach := fun _ _ _ p => (some (Thrown.std_exception "attach failed"), p)
    handleProcessStart := fun _ _ _ _ p => (some Thrown.other, p)
    handleProcessExit := fun p => (none, p)
    handleBreakPoint := fun _ _ p => (none, p) }

/-- A configuration with "pass known exceptions" on. -/
def passingConfig : HideDebuggerConfig :=
  { getDbgPrintException := false
    getKillAntiAttach := false
    getPassExceptions := true
    getCurrentProfile := "default"
    getDefaultConfigFile := "HideDebugger.ini" }

/-- The spec's scenario up to the exit: attach(pid=100), process-start(pid=100,
base=0x400000), exit(pid=100). -/
def attachStartExit : List Notification :=
  [ { notification_code := idaSdk.dbg_process_attach,
      va := { dbgEvent := { pid := 100, exc_code := 0, modinfo_base := 0 },
              tid := 0, breakpoint_ea := 0 } },
    { notification_code := idaSdk.dbg_process_start,
      va := { dbgEvent := { pid := 100, exc_code := 0, modinfo_base := 0x400000 },
              tid := 0, breakpoint_ea := 0 } },
    { notification_code := idaSdk.dbg_process_exit,
      va := { dbgEvent := { pid := 100, exc_code := 0, modinfo_base := 0 },
              tid := 0, breakpoint_ea := 0 } } ]

/-- The spec's exception event: code `0xE06D7363`, which as an `int` is
`-529697949`, for pid 100. -/
def cppException : va_list :=
  { dbgEvent := { pid := 100, exc_code := -529697949, modinfo_base := 0 },
    tid := 0, breakpoint_ea := 0 }

/-- A plugin with no session yet and a host whose exception-dialog field is
`EXCDLG_UNKNOWN`, with an empty list of known exceptions. -/
def freshPlugin : Plugin SessionState :=
  { host := { debugger_options := 0x2000, exceptions := [], calls := [] },
    session := SessionState.Idle }

/-- The claim that exception events without a live session are ignored, as it is
written: after any sequence of notifications that leaves no live session (no
prior attach, or the matching exit delivered), an exception notification
leaves the session as it is and the host's debugger option word unchanged. -/
def ExceptionWithoutSessionIgnored : Prop :=
  ∀ (config : HideDebuggerConfig) (evs : List Notification) (va : va_list)
    (p0 : Plugin SessionState),
    p0.session = SessionState.Idle →
    (deliver idaSdk specSession (Except.ok config) evs p0).session.live = false →
    (callback idaSdk specSession (Except.ok config) idaSdk.dbg_exception va
        (deliver idaSdk specSession (Except.ok config) evs p0)).2.session
      = (deliver idaSdk specSession (Except.ok config) evs p0).session
    ∧ (callback idaSdk specSession (Except.ok config) idaSdk.dbg_exception va
        (deliver idaSdk specSession (Except.ok config) evs p0)).2.host.debugger_options
      = (deliver idaSdk specSession (Except.ok config) evs p0).host.debugger_options

/-- The optional header of a module loaded at `0x7C900000` with its code at
offset `0x1000`. -/
def ntdllHeader : IMAGE_OPTIONAL_HEADER :=
  { BaseOfCode := 0x1000, ImageBase := 0x7C900000, SizeOfCode := 0x7A000 }

/-- A run in which every operating-system call does what it is asked: the module
is found at `0x7C900000`, only that address holds readable headers (the page at
address 0 is never mapped), the process opens, the protection change is granted,
the remote write succeeds, the original attach returns `TRUE`. -/
def win32Ok : Win32 :=
  { GetModuleHandle := fun _ => 0x7C900000
    peHeaders := fun a => if a = 0x7C900000 then some ntdllHeader else none
    OpenProcess := fun _ _ _ => 0x7C4
    protectGranted := fun _ _ _ _ => true
    WriteProcessMemory := fun _ _ _ _ => true
    origDebugActiveProcess := fun _ => 1 }

/-- As `win32Ok`, but `GetModuleHandle` does not find the module and returns `NULL`. -/
def win32ModuleMissing : Win32 :=
  { win32Ok with GetModuleHandle := fun _ => 0 }

/-- As `win32Ok`, but `OpenProcess` fails and returns `NULL`. -/
def win32OpenFails : Win32 :=
  { win32Ok with OpenProcess := fun _ _ _ => 0 }

/-- As `win32Ok`, but the system refuses every protection change. -/
def win32ProtectFails : Win32 :=
  { win32Ok with protectGranted := fun _ _ _ _ => false }

/-- As `win32Ok`, but the remote write fails. -/
def win32WriteFails : Win32 :=
  { win32Ok with WriteProcessMemory := fun _ _ _ _ => false }

/-- A target whose code region is `PAGE_EXECUTE_READ` (0x20), before any call. -/
def freshTarget : Target :=
  { protection := 0x20, calls := [] }

/-- The claim that every failing sub-step of the attach hook reports, as it is
written: whenever the process cannot be opened, or it is opened and the
protection change is refused, or both succeed and the remote write fails, the
run adds a diagnostic message. -/
def EveryFailingStepReports : Prop :=
  ∀ (os : Win32) (dwProcessId : Nat) (t : Target) (hdr : IMAGE_OPTIONAL_HEADER),
    os.GetModuleHandle "ntdll.dll" ≠ winSdk.INVALID_HANDLE_VALUE →
    os.peHeaders (os.GetModuleHandle "ntdll.dll") = some hdr →
    (os.OpenProcess winSdk.PROCESS_ALL_ACCESS false dwProcessId = 0
      ∨ (os.OpenProcess winSdk.PROCESS_ALL_ACCESS false dwProcessId ≠ 0
        ∧ os.protectGranted (os.OpenProcess winSdk.PROCESS_ALL_ACCESS false dwProcessId)
            ((hdr.BaseOfCode + hdr.ImageBase) % 2 ^ 32) hdr.SizeOfCode winSdk.PAGE_READWRITE
          = false)
      ∨ (os.OpenProcess winSdk.PROCESS_ALL_ACCESS false dwProcessId ≠ 0
        ∧ os.protectGranted (os.OpenProcess winSdk.PROCESS_ALL_ACCESS false dwProcessId)
            ((hdr.BaseOfCode + hdr.ImageBase) % 2 ^ 32) hdr.SizeOfCode winSdk.PAGE_READWRITE
          = true
        ∧ os.WriteProcessMemory (os.OpenProcess winSdk.PROCESS_ALL_ACCESS false dwProcessId)
            ((hdr.BaseOfCode + hdr.ImageBase) % 2 ^ 32)
            ((hdr.BaseOfCode + hdr.ImageBase) % 2 ^ 32) hdr.SizeOfCode = false)) →
    (diagnostics t.calls).length
      < (diagnostics (DebugActiveProcessHook winSdk os dwProcessId t).2.calls).length

/-- A hook library in which every request succeeds. -/
def workingHooks : NCodeHook :=
  { createHookByName := fun dll _ _ =>
      Except.ok (if dll = "ntdll.dll" then 0x7C901000 else 0x7C801000)
    removeHook := fun _ => none }

/-- An original `DbgUiConvertStateChangeStructure` that reports an exception
event (`EXCEPTION_DEBUG_EVENT` is 1) carrying the exception code. -/
def sampleConvert (wsc : DBGUI_WAIT_STATE_CHANGE) (DebugEvent : DEBUG_EVENT) : Nat × DEBUG_EVENT :=
  (0, { DebugEvent with dwDebugEventCode := 1, dwProcessId := wsc.UniqueProcess,
                        dwThreadId := wsc.UniqueThread, u := [wsc.ExceptionCode] })

/-- A hook library in which installing a hook in `ntdll.dll` throws a
`std::exception`, and every other request succeeds. -/
def ntdllInstallThrows : NCodeHook :=
  { createHookByName := fun dll _ _ =>
      if dll = "ntdll.dll" then Except.error (Thrown.std_exception "NCodeHook: cannot hook")
      else Except.ok 0x7C801000
    removeHook := fun _ => none }

/-- A configuration with both local-stealth options set. -/
def bothHooksConfig : HideDebuggerConfig :=
  { getDbgPrintException := true
    getKillAntiAttach := true
    getPassExceptions := false
    getCurrentProfile := "default"
    getDefaultConfigFile := "HideDebugger.ini" }

/-- The file-level variables before any hook was requested. -/
def freshGlobals : Globals :=
  { origDbgUiConvStateChngStruct := 0, origDebugActiveProcess := 0, hookCalls := [] }

/-- The request `localStealth` makes for the debug-wait hook under a given value of
`getDbgPrintException`. -/
def dbgPrintRequest (getDbgPrintException : Bool) : NCodeHookCall :=
  if getDbgPrintException then
    NCodeHookCall.createHookByName "ntdll.dll" "DbgUiConvertStateChangeStructure"
      HookFunction.DbgUiConvStateChngStructHook
  else NCodeHookCall.removeHook HookFunction.DbgUiConvStateChngStructHook

/-- The request `localStealth` makes for the attach-entry hook under a given value
of `getKillAntiAttach`. -/
def killAntiAttachRequest (getKillAntiAttach : Bool) : NCodeHookCall :=
  if getKillAntiAttach then
    NCodeHookCall.createHookByName "kernel32.dll" "DebugActiveProcess"
      HookFunction.DebugActiveProcessHook
  else NCodeHookCall.removeHook HookFunction.DebugActiveProcessHook

/-- The claim on `localStealth`, as it is written: for every configuration (and
whatever the hook library does) the run makes the debug-wait request selected by
`getDbgPrintException` and the attach-entry request selected by
`getKillAntiAttach`. -/
def LocalStealthMakesBothRequests : Prop :=
  ∀ (config : HideDebuggerConfig) (nCodeHook_ : NCodeHook) (g : Globals),
    (localStealth config nCodeHook_ g).2.hookCalls
      = g.hookCalls ++ [dbgPrintRequest config.getDbgPrintException,
                        killAntiAttachRequest config.getKillAntiAttach]

/-! ## Lemmas on 32-bit words -/

theorem testBit_not32 (x i : Nat) :
    (not32 x).testBit i = (decide (i < 32) && !x.testBit i) := by
  have h : (0xFFFFFFFF : Nat) = 2 ^ 32 - 1 := by decide
  unfold not32
  rw [h, Nat.testBit_xor, Nat.testBit_two_pow_sub_one, Nat.testBit_mod_two_pow]
  by_cases h32 : i < 32 <;> simp [h32]

theorem testBit_of_lt_two_pow_32 {s i : Nat} (hs : s < 2 ^ 32) (hi : 32 ≤ i) :
    s.testBit i = false := by
  apply Nat.testBit_lt_two_pow
  calc s < 2 ^ 32 := hs
    _ ≤ 2 ^ i := Nat.pow_le_pow_right (by decide) hi

theorem testBit_of_land_eq {x f : Nat} (hx : x &&& f = x) (i : Nat) (hf : f.testBit i = false) :
    x.testBit i = false := by
  have h := congrArg (fun n => n.testBit i) hx
  simp only [Nat.testBit_and, hf, Bool.and_false] at h
  exact h.symm

theorem setExceptionOptions_options (k : IdaConstants) (b : Bool) (h : Host) :
    (setExceptionOptions k b h).debugger_options
      = ((h.debugger_options &&& not32 (k.EXCDLG_ALWAYS ||| k.EXCDLG_UNKNOWN))
          ||| (if b then k.EXCDLG_NEVER else k.EXCDLG_UNKNOWN)) := by
  cases b <;> simp [setExceptionOptions, set_debugger_options]

theorem testBit_setExceptionOptions (k : IdaConstants) (b : Bool) (h : Host) (i : Nat) :
    (setExceptionOptions k b h).debugger_options.testBit i
      = ((h.debugger_options.testBit i
            && (decide (i < 32) && !(k.EXCDLG_ALWAYS.testBit i || k.EXCDLG_UNKNOWN.testBit i)))
          || (if b then k.EXCDLG_NEVER else k.EXCDLG_UNKNOWN).testBit i) := by
  rw [setExceptionOptions_options, Nat.testBit_or, Nat.testBit_and, testBit_not32,
    Nat.testBit_or]

/-! ## Lemmas on the known-exception scan -/

theorem int32_eq_iff (c : Int) (u : Nat) (hlo : -(2 : Int) ^ 31 ≤ c) (hhi : c < (2 : Int) ^ 31) :
    c = int32 u ↔ (u : Int) % 2 ^ 32 = c % 2 ^ 32 := by
  unfold int32
  norm_num at hlo hhi ⊢
  split <;> omega

theorem scanKnownExceptions_false (code : Int) (l : List exception_info_t) :
    scanKnownExceptions code false l = false := by
  induction l with
  | nil => rfl
  | cons e rest ih => simp [scanKnownExceptions, ih]

theorem scanKnownExceptions_true_iff (code : Int) (l : List exception_info_t) :
    scanKnownExceptions code true l = true ↔ ∀ exInfo ∈ l, code ≠ int32 exInfo.code := by
  induction l with
  | nil => simp [scanKnownExceptions]
  | cons e rest ih =>
    by_cases h : code = int32 e.code
    · simp [scanKnownExceptions, h]
    · simp [scanKnownExceptions, h, ih]

/-! ## `setExceptionOptions` (C10) -/

/-- C10: for every prior option word `s` (a 32-bit word) and every boolean `b`,
`setExceptionOptions b` leaves every bit outside the exception-dialog field
`EXCDLG_ALWAYS | EXCDLG_UNKNOWN` as it was, and sets the field to `EXCDLG_NEVER`
when `b` is true and to `EXCDLG_UNKNOWN` when `b` is false; the result does not
depend on the previous value of the field, and `setExceptionOptions a` followed
by `setExceptionOptions b` gives the same options as `setExceptionOptions b`
alone.  The constants are those of any header in which `EXCDLG_NEVER` lies
inside the field, as in the IDA SDK. -/
theorem setExceptionOptions_rewrites_only_the_dialog_field
    (k : IdaConstants) (h : Host) (b : Bool)
    (hs : h.debugger_options < 2 ^ 32)
    (hnever : k.EXCDLG_NEVER &&& (k.EXCDLG_ALWAYS ||| k.EXCDLG_UNKNOWN) = k.EXCDLG_NEVER) :
    (∀ i, (k.EXCDLG_ALWAYS ||| k.EXCDLG_UNKNOWN).testBit i = false →
        (setExceptionOptions k b h).debugger_options.testBit i = h.debugger_options.testBit i)
    ∧ (setExceptionOptions k b h).debugger_options &&& (k.EXCDLG_ALWAYS ||| k.EXCDLG_UNKNOWN)
        = (if b then k.EXCDLG_NEVER else k.EXCDLG_UNKNOWN)
    ∧ (∀ h' : Host,
        (∀ i, (k.EXCDLG_ALWAYS ||| k.EXCDLG_UNKNOWN).testBit i = false →
          h'.debugger_options.testBit i = h.debugger_options.testBit i) →
        (setExceptionOptions k b h').debugger_options
          = (setExceptionOptions k b h).debugger_options)
    ∧ (∀ a : Bool,
        (setExceptionOptions k b (setExceptionOptions k a h)).debugger_options
          = (setExceptionOptions k b h).debugger_options) := by
  have hunknown : k.EXCDLG_UNKNOWN &&& (k.EXCDLG_ALWAYS ||| k.EXCDLG_UNKNOWN)
      = k.EXCDLG_UNKNOWN := by
    apply Nat.eq_of_testBit_eq
    intro i
    simp only [Nat.testBit_and, Nat.testBit_or]
    cases k.EXCDLG_UNKNOWN.testBit i <;> simp
  have hin : ∀ c : Bool, (if c then k.EXCDLG_NEVER else k.EXCDLG_UNKNOWN)
      &&& (k.EXCDLG_ALWAYS ||| k.EXCDLG_UNKNOWN)
      = (if c then k.EXCDLG_NEVER else k.EXCDLG_UNKNOWN) := by
    intro c
    cases c
    · simpa using hunknown
    · simpa using hnever
  refine ⟨?_, ?_, ?_, ?_⟩
  · intro i hi
    have hx := testBit_of_land_eq (hin b) i hi
    rw [testBit_setExceptionOptions, hx]
    rw [Nat.testBit_or] at hi
    rw [hi]
    by_cases h32 : i < 32
    · simp [h32]
    · simp [h32, testBit_of_lt_two_pow_32 hs (Nat.le_of_not_lt h32)]
  · apply Nat.eq_of_testBit_eq
    intro i
    have hx := congrArg (fun n => n.testBit i) (hin b)
    simp only [Nat.testBit_and, Nat.testBit_or] at hx
    rw [Nat.testBit_and, testBit_setExceptionOptions, Nat.testBit_or]
    revert hx
    cases (if b then k.EXCDLG_NEVER else k.EXCDLG_UNKNOWN).testBit i <;>
      cases k.EXCDLG_ALWAYS.testBit i <;> cases k.EXCDLG_UNKNOWN.testBit i <;> simp
  · intro h' hsame
    apply Nat.eq_of_testBit_eq
    intro i
    rw [testBit_setExceptionOptions, testBit_setExceptionOptions]
    by_cases hf : (k.EXCDLG_ALWAYS ||| k.EXCDLG_UNKNOWN).testBit i = false
    · rw [hsame i hf]
    · rw [Nat.testBit_or] at hf
      simp only [Bool.not_eq_false] at hf
      simp [hf]
  · intro a
    apply Nat.eq_of_testBit_eq
    intro i
    have hx := congrArg (fun n => n.testBit i) (hin a)
    simp only [Nat.testBit_and, Nat.testBit_or] at hx
    simp only [testBit_setExceptionOptions]
    revert hx
    cases (if a then k.EXCDLG_NEVER else k.EXCDLG_UNKNOWN).testBit i <;>
      cases k.EXCDLG_ALWAYS.testBit i <;> cases k.EXCDLG_UNKNOWN.testBit i <;> simp

/-- C10 at the IDA SDK constants, on the option word `0x0000E0FF` (field set to
`EXCDLG_ALWAYS`) with `b = false`. -/
theorem setExceptionOptions_rewrites_only_the_dialog_field_witness :
    (setExceptionOptions idaSdk false
        { debugger_options := 0x0000E0FF, exceptions := [], calls := [] }).debugger_options
      = 0x0000A0FF
    ∧ (setExceptionOptions idaSdk false
        { debugger_options := 0x0000E0FF, exceptions := [], calls := [] }).debugger_options
        &&& (idaSdk.EXCDLG_ALWAYS ||| idaSdk.EXCDLG_UNKNOWN)
      = (if false = true then idaSdk.EXCDLG_NEVER else idaSdk.EXCDLG_UNKNOWN) :=
  ⟨by decide,
    (setExceptionOptions_rewrites_only_the_dialog_field idaSdk
      { debugger_options := 0x0000E0FF, exceptions := [], calls := [] } false
      (by decide) (by decide)).2.1⟩

/-! ## `handleDebugException` (C1, C4) -/

/-- C1: with "pass known exceptions" on, for every exception code `c` (an `int`)
and every known-exception list, `handleDebugException` retrieves the list and
calls `setExceptionOptions` with `ignoreException = true` if and only if no entry
of the list has a code equal to `c` as a 32-bit value; for the empty list the
flag is true for every code; and the flag is the same for any other
configuration, event and host state with the same code and the same list. -/
theorem handleDebugException_ignores_iff_code_unknown
    (k : IdaConstants) (config : HideDebuggerConfig) (dbgEvent : debug_event_t) (h : Host)
    (hpass : config.getPassExceptions = true)
    (hlo : -(2 : Int) ^ 31 ≤ dbgEvent.exc_code) (hhi : dbgEvent.exc_code < (2 : Int) ^ 31) :
    handleDebugException k (Except.ok config) dbgEvent h
        = (none, setExceptionOptions k (scanKnownExceptions dbgEvent.exc_code true h.exceptions)
            (retrieve_exceptions h).2)
    ∧ (scanKnownExceptions dbgEvent.exc_code true h.exceptions = true ↔
        ∀ exInfo ∈ h.exceptions, (exInfo.code : Int) % 2 ^ 32 ≠ dbgEvent.exc_code % 2 ^ 32)
    ∧ (h.exceptions = [] → scanKnownExceptions dbgEvent.exc_code true h.exceptions = true)
    ∧ (∀ (config2 : HideDebuggerConfig) (dbgEvent2 : debug_event_t) (h2 : Host),
        config2.getPassExceptions = true → dbgEvent2.exc_code = dbgEvent.exc_code →
        h2.exceptions = h.exceptions →
        handleDebugException k (Except.ok config2) dbgEvent2 h2
          = (none, setExceptionOptions k
              (scanKnownExceptions dbgEvent.exc_code true h.exceptions)
              (retrieve_exceptions h2).2)) := by
  refine ⟨?_, ?_, ?_, ?_⟩
  · simp [handleDebugException, hpass, retrieve_exceptions]
  · rw [scanKnownExceptions_true_iff]
    constructor
    · intro hall e he heq
      exact hall e he ((int32_eq_iff _ _ hlo hhi).mpr heq)
    · intro hall e he heq
      exact hall e he ((int32_eq_iff _ _ hlo hhi).mp heq)
  · intro hnil
    rw [hnil]
    rfl
  · intro config2 dbgEvent2 h2 hpass2 hcode hlist
    simp [handleDebugException, hpass2, retrieve_exceptions, hcode, hlist]

/-- C1 on the spec's scenario: code `0xE06D7363` (as an `int`, `-529697949`),
empty list, option word with the field at `EXCDLG_UNKNOWN`: the flag passed is
true and the field becomes `EXCDLG_NEVER`. -/
theorem handleDebugException_ignores_iff_code_unknown_witness :
    handleDebugException idaSdk
        (Except.ok { getDbgPrintException := false, getKillAntiAttach := false,
                     getPassExceptions := true, getCurrentProfile := "default",
                     getDefaultConfigFile := "HideDebugger.ini" })
        { pid := 100, exc_code := -529697949, modinfo_base := 0x400000 }
        { debugger_options := 0x2000, exceptions := [], calls := [] }
      = (none, setExceptionOptions idaSdk
          (scanKnownExceptions (-529697949) true [])
          (retrieve_exceptions { debugger_options := 0x2000, exceptions := [], calls := [] }).2)
    ∧ scanKnownExceptions (-529697949) true [] = true :=
  ⟨(handleDebugException_ignores_iff_code_unknown idaSdk
      { getDbgPrintException := false, getKillAntiAttach := false,
        getPassExceptions := true, getCurrentProfile := "default",
        getDefaultConfigFile := "HideDebugger.ini" }
      { pid := 100, exc_code := -529697949, modinfo_base := 0x400000 }
      { debugger_options := 0x2000, exceptions := [], calls := [] }
      rfl (by decide) (by decide)).1,
    rfl⟩

/-- C4: with "pass known exceptions" off, for every exception event and every
host state (so every known-exception list), `handleDebugException` returns with
the host exactly as it was: the option word, the list and the call list are
unchanged, so neither `retrieve_exceptions` nor `set_debugger_options` was
called, and `setExceptionOptions`, which calls the latter, was not called. -/
theorem handleDebugException_off_leaves_host
    (k : IdaConstants) (config : HideDebuggerConfig) (dbgEvent : debug_event_t) (h : Host)
    (hpass : config.getPassExceptions = false) :
    handleDebugException k (Except.ok config) dbgEvent h = (none, h)
    ∧ (∀ b : Bool, (setExceptionOptions k b h).calls ≠ h.calls)
    ∧ (retrieve_exceptions h).2.calls ≠ h.calls := by
  refine ⟨?_, ?_, ?_⟩
  · simp [handleDebugException, hpass]
  · intro b hb
    have hlen := congrArg List.length hb
    simp [setExceptionOptions, set_debugger_options] at hlen
  · intro hb
    have hlen := congrArg List.length hb
    simp [retrieve_exceptions] at hlen

/-- C4 on a host whose list knows the event's code: nothing happens. -/
theorem handleDebugException_off_leaves_host_witness :
    handleDebugException idaSdk
        (Except.ok { getDbgPrintException := true, getKillAntiAttach := true,
                     getPassExceptions := false, getCurrentProfile := "default",
                     getDefaultConfigFile := "HideDebugger.ini" })
        { pid := 100, exc_code := 5, modinfo_base := 0x400000 }
        { debugger_options := 0x2000, exceptions := [{ code := 5, desc := "known" }],
          calls := [] }
      = (none, { debugger_options := 0x2000, exceptions := [{ code := 5, desc := "known" }],
                 calls := [] }) :=
  (handleDebugException_off_leaves_host idaSdk
    { getDbgPrintException := true, getKillAntiAttach := true,
      getPassExceptions := false, getCurrentProfile := "default",
      getDefaultConfigFile := "HideDebugger.ini" }
    { pid := 100, exc_code := 5, modinfo_base := 0x400000 }
    { debugger_options := 0x2000, exceptions := [{ code := 5, desc := "known" }], calls := [] }
    rfl).1

/-! ## `callback` (C2, C3) -/

theorem callbackTry_exception {S : Type} (k : IdaConstants) (session_ : LocalStealthSession S)
    (config : HideDebuggerConfig) (va : va_list) (p : Plugin S)
    (hattach : k.dbg_exception ≠ k.dbg_process_attach)
    (hstart : k.dbg_exception ≠ k.dbg_process_start)
    (hexit : k.dbg_exception ≠ k.dbg_process_exit)
    (hbpt : k.dbg_exception ≠ k.dbg_bpt) :
    callbackTry k session_ (Except.ok config) k.dbg_exception va p
      = ((handleDebugException k (Except.ok config) va.dbgEvent p.host).1,
          { p with host := (handleDebugException k (Except.ok config) va.dbgEvent p.host).2 }) := by
  simp [callbackTry, hattach, hstart, hexit, hbpt]

theorem callback_exception {S : Type} (k : IdaConstants) (session_ : LocalStealthSession S)
    (config : HideDebuggerConfig) (va : va_list) (p : Plugin S)
    (hattach : k.dbg_exception ≠ k.dbg_process_attach)
    (hstart : k.dbg_exception ≠ k.dbg_process_start)
    (hexit : k.dbg_exception ≠ k.dbg_process_exit)
    (hbpt : k.dbg_exception ≠ k.dbg_bpt) :
    callback k session_ (Except.ok config) k.dbg_exception va p
      = (Except.ok 0,
          { p with host :=
              (if config.getPassExceptions then
                  setExceptionOptions k
                    (scanKnownExceptions va.dbgEvent.exc_code true p.host.exceptions)
                    (retrieve_exceptions p.host).2
                else p.host) }) := by
  unfold callback
  rw [callbackTry_exception k session_ config va p hattach hstart hexit hbpt]
  by_cases hpass : config.getPassExceptions = true
  · simp [handleDebugException, hpass, retrieve_exceptions]
  · simp [handleDebugException, hpass]

/-- C2: for every notification code, every behaviour of the session's handlers
and every outcome of `getInstance` (so whatever the `try` block does: return, throw
a `std::exception`, throw anything else), `callback` returns 0 and nothing escapes
to the host; the session is left as the `try` block left it; if nothing was thrown
the host is as the `try` block left it, and if something was thrown exactly one
call to `msg` is added, so the diagnostic messages are those present at the throw
followed by exactly one more. -/
theorem callback_returns_zero_and_reports_once {S : Type} (k : IdaConstants)
    (session_ : LocalStealthSession S) (getInstance : Except Thrown HideDebuggerConfig)
    (notification_code : Int) (va : va_list) (p : Plugin S) :
    (callback k session_ getInstance notification_code va p).1 = Except.ok 0
    ∧ (callback k session_ getInstance notification_code va p).2.session
        = (callbackTry k session_ getInstance notification_code va p).2.session
    ∧ ((callbackTry k session_ getInstance notification_code va p).1 = none →
        (callback k session_ getInstance notification_code va p).2
          = (callbackTry k session_ getInstance notification_code va p).2)
    ∧ (∀ t, (callbackTry k session_ getInstance notification_code va p).1 = some t →
        ∃ text : String,
          (callback k session_ getInstance notification_code va p).2.host.calls
            = (callbackTry k session_ getInstance notification_code va p).2.host.calls
                ++ [HostCall.msg text]
          ∧ (callback k session_ getInstance notification_code va p).2.host.debugger_options
            = (callbackTry k session_ getInstance notification_code va p).2.host.debugger_options
          ∧ messages (callback k session_ getInstance notification_code va p).2.host.calls
            = messages (callbackTry k session_ getInstance notification_code va p).2.host.calls
                ++ [text])
    ∧ (∀ config, getInstance = Except.ok config →
        notification_code ≠ k.dbg_process_attach → notification_code ≠ k.dbg_process_start →
        notification_code ≠ k.dbg_process_exit → notification_code ≠ k.dbg_bpt →
        notification_code ≠ k.dbg_exception →
        callback k session_ getInstance notification_code va p = (Except.ok 0, p)) := by
  have hmsg : ∀ (l : List HostCall) (text : String),
      messages (l ++ [HostCall.msg text]) = messages l ++ [text] := by
    intro l text
    induction l with
    | nil => rfl
    | cons c rest ih => cases c <;> simp [messages, ih]
  refine ⟨?_, ?_, ?_, ?_, ?_⟩
  · unfold callback
    rcases hr : (callbackTry k session_ getInstance notification_code va p).1 with _ | t
    · simp [hr]
    · cases t <;> simp [hr]
  · unfold callback
    rcases hr : (callbackTry k session_ getInstance notification_code va p).1 with _ | t
    · simp [hr]
    · cases t <;> simp [hr]
  · intro hnone
    unfold callback
    simp [hnone]
  · intro t ht
    unfold callback
    cases t with
    | std_exception what =>
      refine ⟨"IDAStealth: Error in IDA callback: " ++ what ++ "\n", ?_⟩
      simp [ht, msg, hmsg]
    | other =>
      refine ⟨"IDAStealth: Unknown error (this should never happen!)\n", ?_⟩
      simp [ht, msg, hmsg]
  · intro config hcfg h1 h2 h3 h4 h5
    subst hcfg
    simp [callback, callbackTry, h1, h2, h3, h4, h5]

/-- C2 on an attach notification whose handler throws `std::exception("attach
failed")`: `callback` returns 0 and the host receives exactly one message. -/
theorem callback_returns_zero_and_reports_once_witness :
    (callbackTry idaSdk throwingSession (Except.ok passingConfig) idaSdk.dbg_process_attach
        cppException { host := { debugger_options := 0, exceptions := [], calls := [] },
                       session := () }).1
      = some (Thrown.std_exception "attach failed")
    ∧ (callback idaSdk throwingSession (Except.ok passingConfig) idaSdk.dbg_process_attach
        cppException { host := { debugger_options := 0, exceptions := [], calls := [] },
                       session := () }).1 = Except.ok 0
    ∧ ∃ text : String,
        (callback idaSdk throwingSession (Except.ok passingConfig) idaSdk.dbg_process_attach
          cppException { host := { debugger_options := 0, exceptions := [], calls := [] },
                         session := () }).2.host.calls
          = (callbackTry idaSdk throwingSession (Except.ok passingConfig)
              idaSdk.dbg_process_attach cppException
              { host := { debugger_options := 0, exceptions := [], calls := [] },
                session := () }).2.host.calls ++ [HostCall.msg text] :=
  ⟨rfl,
    (callback_returns_zero_and_reports_once idaSdk throwingSession (Except.ok passingConfig)
      idaSdk.dbg_process_attach cppException
      { host := { debugger_options := 0, exceptions := [], calls := [] }, session := () }).1,
    ((callback_returns_zero_and_reports_once idaSdk throwingSession (Except.ok passingConfig)
      idaSdk.dbg_process_attach cppException
      { host := { debugger_options := 0, exceptions := [], calls := [] },
        session := () }).2.2.2.1 (Thrown.std_exception "attach failed") rfl).imp
      (fun _ h => h.1)⟩

/-- C3, the claim as written, fails: in the spec's own scenario (attach, start,
exit for pid 100, then an exception with code `0xE06D7363` and an empty list of
known exceptions, "pass known exceptions" on) no session is live when the exception
arrives, yet the host's option word changes from `0x2000` to `0`. -/
theorem exception_without_session_not_ignored : ¬ ExceptionWithoutSessionIgnored := by
  intro hclaim
  have h := (hclaim passingConfig attachStartExit cppException freshPlugin rfl (by decide)).2
  revert h
  decide

/-- C3 as amended: for every session implementation, every sequence of
notifications delivered before (so whether or not an attach came first or an exit
came last) and every exception notification, `callback` returns 0, leaves the
session exactly as it was (it creates none), and treats the host without looking
at the session: with "pass known exceptions" off the host is unchanged, with it on
the option word is rewritten by `setExceptionOptions` from the current list. -/
theorem callback_exception_never_touches_session {S : Type} (k : IdaConstants)
    (session_ : LocalStealthSession S) (config : HideDebuggerConfig)
    (evs : List Notification) (va : va_list) (p0 : Plugin S)
    (hattach : k.dbg_exception ≠ k.dbg_process_attach)
    (hstart : k.dbg_exception ≠ k.dbg_process_start)
    (hexit : k.dbg_exception ≠ k.dbg_process_exit)
    (hbpt : k.dbg_exception ≠ k.dbg_bpt) :
    (callback k session_ (Except.ok config) k.dbg_exception va
        (deliver k session_ (Except.ok config) evs p0)).1 = Except.ok 0
    ∧ (callback k session_ (Except.ok config) k.dbg_exception va
        (deliver k session_ (Except.ok config) evs p0)).2.session
      = (deliver k session_ (Except.ok config) evs p0).session
    ∧ (callback k session_ (Except.ok config) k.dbg_exception va
        (deliver k session_ (Except.ok config) evs p0)).2.host
      = (if config.getPassExceptions then
          setExceptionOptions k
            (scanKnownExceptions va.dbgEvent.exc_code true
              (deliver k session_ (Except.ok config) evs p0).host.exceptions)
            (retrieve_exceptions (deliver k session_ (Except.ok config) evs p0).host).2
        else (deliver k session_ (Except.ok config) evs p0).host) := by
  rw [callback_exception k session_ config va _ hattach hstart hexit hbpt]
  exact ⟨rfl, rfl, rfl⟩

/-- C3 as amended, on the spec's scenario: after attach, start and exit the
exception notification leaves the session `Exited`. -/
theorem callback_exception_never_touches_session_witness :
    (deliver idaSdk specSession (Except.ok passingConfig) attachStartExit freshPlugin).session
      = SessionState.Exited
    ∧ (callback idaSdk specSession (Except.ok passingConfig) idaSdk.dbg_exception cppException
        (deliver idaSdk specSession (Except.ok passingConfig) attachStartExit
          freshPlugin)).2.session
      = (deliver idaSdk specSession (Except.ok passingConfig) attachStartExit
          freshPlugin).session :=
  ⟨by decide,
    (callback_exception_never_touches_session idaSdk specSession passingConfig attachStartExit
      cppException freshPlugin (by decide) (by decide) (by decide) (by decide)).2.1⟩

/-! ## `DbgUiConvStateChngStructHook` (C9) -/

/-- C9: for every wait-state change (and whatever the original function does), the
hook special-cases exactly the code `DBG_PRINTEXCEPTION_C`: for that code it
returns 0 without calling the original, with the debug event's process and thread
id taken from the client id, its event code set to `DbgReplyPending` and the rest
untouched; for every other code it calls the original once with the same
arguments and returns its status and its debug event. -/
theorem DbgUiConvStateChngStructHook_special_cases_print_exception
    (w : WinConstants)
    (origDbgUiConvStateChngStruct : DBGUI_WAIT_STATE_CHANGE → DEBUG_EVENT → Nat × DEBUG_EVENT)
    (wsc : DBGUI_WAIT_STATE_CHANGE) (DebugEvent : DEBUG_EVENT) :
    (wsc.ExceptionCode = w.DBG_PRINTEXCEPTION_C →
      DbgUiConvStateChngStructHook w origDbgUiConvStateChngStruct (some wsc) DebugEvent
        = { status := 0
            DebugEvent :=
              { dwDebugEventCode := w.DbgReplyPending
                dwProcessId := wsc.UniqueProcess % 2 ^ 32
                dwThreadId := wsc.UniqueThread % 2 ^ 32
                u := DebugEvent.u }
            origCalls := [] })
    ∧ (wsc.ExceptionCode ≠ w.DBG_PRINTEXCEPTION_C →
      DbgUiConvStateChngStructHook w origDbgUiConvStateChngStruct (some wsc) DebugEvent
        = { status := (origDbgUiConvStateChngStruct wsc DebugEvent).1
            DebugEvent := (origDbgUiConvStateChngStruct wsc DebugEvent).2
            origCalls := [(wsc, DebugEvent)] }) := by
  constructor
  · intro h
    simp [DbgUiConvStateChngStructHook, h]
  · intro h
    simp [DbgUiConvStateChngStructHook, h]

/-- C9 on two wait-state changes of process `0x1F4`, thread `0x2C8`: one with
`DBG_PRINTEXCEPTION_C` (`0x40010006`), one with an access violation (`0xC0000005`). -/
theorem DbgUiConvStateChngStructHook_special_cases_print_exception_witness :
    DbgUiConvStateChngStructHook winSdk sampleConvert
        (some { NewState := 6, UniqueProcess := 0x1F4, UniqueThread := 0x2C8,
                ExceptionCode := 0x40010006 })
        { dwDebugEventCode := 0, dwProcessId := 0, dwThreadId := 0, u := [] }
      = { status := 0
          DebugEvent := { dwDebugEventCode := 1, dwProcessId := 0x1F4, dwThreadId := 0x2C8,
                          u := [] }
          origCalls := [] }
    ∧ DbgUiConvStateChngStructHook winSdk sampleConvert
        (some { NewState := 6, UniqueProcess := 0x1F4, UniqueThread := 0x2C8,
                ExceptionCode := 0xC0000005 })
        { dwDebugEventCode := 0, dwProcessId := 0, dwThreadId := 0, u := [] }
      = { status := 0
          DebugEvent := { dwDebugEventCode := 1, dwProcessId := 0x1F4, dwThreadId := 0x2C8,
                          u := [0xC0000005] }
          origCalls :=
            [({ NewState := 6, UniqueProcess := 0x1F4, UniqueThread := 0x2C8,
                ExceptionCode := 0xC0000005 },
              { dwDebugEventCode := 0, dwProcessId := 0, dwThreadId := 0, u := [] })] } :=
  ⟨(DbgUiConvStateChngStructHook_special_cases_print_exception winSdk sampleConvert
      { NewState := 6, UniqueProcess := 0x1F4, UniqueThread := 0x2C8,
        ExceptionCode := 0x40010006 }
      { dwDebugEventCode := 0, dwProcessId := 0, dwThreadId := 0, u := [] }).1 (by decide),
    (DbgUiConvStateChngStructHook_special_cases_print_exception winSdk sampleConvert
      { NewState := 6, UniqueProcess := 0x1F4, UniqueThread := 0x2C8,
        ExceptionCode := 0xC0000005 }
      { dwDebugEventCode := 0, dwProcessId := 0, dwThreadId := 0, u := [] }).2 (by decide)⟩

/-! ## `localStealth` (C8) -/

/-- C8, the claim as written, fails: with both options set and a hook library whose
install in `ntdll.dll` throws, `localStealth` leaves with that exception after the
first request, and the attach-entry request is never made. -/
theorem localStealth_not_always_both_requests : ¬ LocalStealthMakesBothRequests := by
  intro hclaim
  have h := hclaim bothHooksConfig ntdllInstallThrows freshGlobals
  revert h
  decide

/-- C8 as amended: for every configuration, every behaviour of the hook library and
every prior value of the variables, `localStealth` first makes the debug-wait
request selected by `getDbgPrintException` (install into
`ntdll.dll`/`DbgUiConvertStateChangeStructure` when set, removal otherwise).  If that
request returns, it then makes the attach-entry request selected by
`getKillAntiAttach` (install into `kernel32.dll`/`DebugActiveProcess` when set,
removal otherwise) and nothing more; if it throws, `localStealth` leaves with that
exception and makes no attach-entry request.  Each saved original entry takes the
value an install returned and is otherwise unchanged. -/
theorem localStealth_requests_in_order
    (config : HideDebuggerConfig) (nCodeHook_ : NCodeHook) (g : Globals) :
    (localStealthDbgPrint config nCodeHook_ g).1
        = (if config.getDbgPrintException then
            (match nCodeHook_.createHookByName "ntdll.dll" "DbgUiConvertStateChangeStructure"
                HookFunction.DbgUiConvStateChngStructHook with
              | Except.ok _ => none
              | Except.error e => some e)
          else nCodeHook_.removeHook HookFunction.DbgUiConvStateChngStructHook)
    ∧ (localStealth config nCodeHook_ g).2.hookCalls
        = g.hookCalls ++
          (dbgPrintRequest config.getDbgPrintException ::
            (if (localStealthDbgPrint config nCodeHook_ g).1 = none then
              [killAntiAttachRequest config.getKillAntiAttach]
            else []))
    ∧ (localStealth config nCodeHook_ g).1
        = (match (localStealthDbgPrint config nCodeHook_ g).1 with
            | some e => some e
            | none =>
              (if config.getKillAntiAttach then
                (match nCodeHook_.createHookByName "kernel32.dll" "DebugActiveProcess"
                    HookFunction.DebugActiveProcessHook with
                  | Except.ok _ => none
                  | Except.error e => some e)
              else nCodeHook_.removeHook HookFunction.DebugActiveProcessHook))
    ∧ (localStealth config nCodeHook_ g).2.origDbgUiConvStateChngStruct
        = (if config.getDbgPrintException then
            (match nCodeHook_.createHookByName "ntdll.dll" "DbgUiConvertStateChangeStructure"
                HookFunction.DbgUiConvStateChngStructHook with
              | Except.ok orig => orig
              | Except.error _ => g.origDbgUiConvStateChngStruct)
          else g.origDbgUiConvStateChngStruct)
    ∧ (localStealth config nCodeHook_ g).2.origDebugActiveProcess
        = (if config.getKillAntiAttach
              ∧ (localStealthDbgPrint config nCodeHook_ g).1 = none then
            (match nCodeHook_.createHookByName "kernel32.dll" "DebugActiveProcess"
                HookFunction.DebugActiveProcessHook with
              | Except.ok orig => orig
              | Except.error _ => g.origDebugActiveProcess)
          else g.origDebugActiveProcess) := by
  by_cases hd : config.getDbgPrintException = true <;>
    by_cases hk : config.getKillAntiAttach = true <;>
    rcases h1 : nCodeHook_.createHookByName "ntdll.dll" "DbgUiConvertStateChangeStructure"
      HookFunction.DbgUiConvStateChngStructHook with e1 | o1 <;>
    rcases h2 : nCodeHook_.createHookByName "kernel32.dll" "DebugActiveProcess"
      HookFunction.DebugActiveProcessHook with e2 | o2 <;>
    rcases h3 : nCodeHook_.removeHook HookFunction.DbgUiConvStateChngStructHook with _ | e3 <;>
    rcases h4 : nCodeHook_.removeHook HookFunction.DebugActiveProcessHook with _ | e4 <;>
    simp [localStealth, localStealthDbgPrint, localStealthKillAntiAttach, dbgPrintRequest,
      killAntiAttachRequest, hd, hk, h1, h2, h3, h4]

/-- C8 as amended, on two runs with both options set: a hook library that
succeeds (both installs requested, both originals saved) and one whose `ntdll.dll`
install throws (one request, the exception leaves, nothing saved). -/
theorem localStealth_requests_in_order_witness :
    (localStealth bothHooksConfig workingHooks freshGlobals).2.hookCalls
      = [NCodeHookCall.createHookByName "ntdll.dll" "DbgUiConvertStateChangeStructure"
           HookFunction.DbgUiConvStateChngStructHook,
         NCodeHookCall.createHookByName "kernel32.dll" "DebugActiveProcess"
           HookFunction.DebugActiveProcessHook]
    ∧ (localStealth bothHooksConfig ntdllInstallThrows freshGlobals).2.hookCalls
      = [NCodeHookCall.createHookByName "ntdll.dll" "DbgUiConvertStateChangeStructure"
           HookFunction.DbgUiConvStateChngStructHook]
    ∧ (localStealth bothHooksConfig ntdllInstallThrows freshGlobals).1
      = some (Thrown.std_exception "NCodeHook: cannot hook") :=
  ⟨(localStealth_requests_in_order bothHooksConfig workingHooks freshGlobals).2.1.trans
      (by decide),
    (localStealth_requests_in_order bothHooksConfig ntdllInstallThrows freshGlobals).2.1.trans
      (by decide),
    (localStealth_requests_in_order bothHooksConfig ntdllInstallThrows freshGlobals).2.2.1.trans
      (by decide)⟩

/-! ## `DebugActiveProcessHook` (C5, C6, C7) -/

theorem diagnostics_append (l m : List Win32Call) :
    diagnostics (l ++ m) = diagnostics l ++ diagnostics m := by
  induction l with
  | nil => rfl
  | cons c rest ih => cases c <;> simp [diagnostics, ih]

/-- Outside what a process can see: were `GetModuleHandle("ntdll.dll")` to return
`NULL`, the guard, which tests for `INVALID_HANDLE_VALUE`, would let the hook read
the headers through the null pointer; the hook would fault after the lookup
without calling the original attach function. -/
theorem DebugActiveProcessHook_null_module_handle_faults :
    DebugActiveProcessHook winSdk win32ModuleMissing 1234 freshTarget
      = (none, { protection := 0x20, calls := [Win32Call.GetModuleHandle "ntdll.dll"] })
    ∧ Win32Call.origDebugActiveProcess 1234
        ∉ (DebugActiveProcessHook winSdk win32ModuleMissing 1234 freshTarget).2.calls := by
  decide

/-- Whenever the target was opened and the first protection change succeeded, the
hook does issue the restoring `VirtualProtectEx` with the saved protection, but with
`lpflOldProtect = NULL`, and the region is left `PAGE_READWRITE`. -/
theorem DebugActiveProcessHook_leaves_region_writable
    (w : WinConstants) (os : Win32) (dwProcessId : Nat) (t : Target)
    (hdr : IMAGE_OPTIONAL_HEADER)
    (hinv : os.GetModuleHandle "ntdll.dll" ≠ w.INVALID_HANDLE_VALUE)
    (hhdr : os.peHeaders (os.GetModuleHandle "ntdll.dll") = some hdr)
    (hopen : os.OpenProcess w.PROCESS_ALL_ACCESS false dwProcessId ≠ 0)
    (hprot : os.protectGranted (os.OpenProcess w.PROCESS_ALL_ACCESS false dwProcessId)
      ((hdr.BaseOfCode + hdr.ImageBase) % 2 ^ 32) hdr.SizeOfCode w.PAGE_READWRITE = true) :
    (DebugActiveProcessHook w os dwProcessId t).2.protection = w.PAGE_READWRITE
    ∧ Win32Call.VirtualProtectEx (os.OpenProcess w.PROCESS_ALL_ACCESS false dwProcessId)
        ((hdr.BaseOfCode + hdr.ImageBase) % 2 ^ 32) hdr.SizeOfCode t.protection false
      ∈ (DebugActiveProcessHook w os dwProcessId t).2.calls := by
  simp only [Nat.reducePow] at hprot
  by_cases hwrite : os.WriteProcessMemory
      (os.OpenProcess w.PROCESS_ALL_ACCESS false dwProcessId)
      ((hdr.BaseOfCode + hdr.ImageBase) % 2 ^ 32)
      ((hdr.BaseOfCode + hdr.ImageBase) % 2 ^ 32) hdr.SizeOfCode = true
  · simp only [Nat.reducePow] at hwrite
    simp [DebugActiveProcessHook, VirtualProtectEx, Target.log, hinv, hhdr, hopen, hprot, hwrite]
  · simp only [Nat.reducePow] at hwrite
    simp [DebugActiveProcessHook, VirtualProtectEx, Target.log, hinv, hhdr, hopen, hprot, hwrite]

/-- C6, at the failing input: every step succeeds (first run), or only the remote
write fails (second run).  The handle is closed exactly once; the restoring call is
issued with the saved protection `0x20` but with `lpflOldProtect = NULL`, for which
`VirtualProtectEx` fails, so the region ends `PAGE_READWRITE` (`0x04`), not `0x20`. -/
theorem DebugActiveProcessHook_protection_not_restored :
    DebugActiveProcessHook winSdk win32Ok 1234 freshTarget
      = (some 1,
          { protection := 0x04
            calls :=
              [Win32Call.GetModuleHandle "ntdll.dll",
               Win32Call.OpenProcess 0x1F0FFF false 1234,
               Win32Call.VirtualProtectEx 0x7C4 0x7C901000 0x7A000 0x04 true,
               Win32Call.WriteProcessMemory 0x7C4 0x7C901000 0x7C901000 0x7A000,
               Win32Call.VirtualProtectEx 0x7C4 0x7C901000 0x7A000 0x20 false,
               Win32Call.CloseHandle 0x7C4,
               Win32Call.origDebugActiveProcess 1234] })
    ∧ DebugActiveProcessHook winSdk win32WriteFails 1234 freshTarget
      = (some 1,
          { protection := 0x04
            calls :=
              [Win32Call.GetModuleHandle "ntdll.dll",
               Win32Call.OpenProcess 0x1F0FFF false 1234,
               Win32Call.VirtualProtectEx 0x7C4 0x7C901000 0x7A000 0x04 true,
               Win32Call.WriteProcessMemory 0x7C4 0x7C901000 0x7C901000 0x7A000,
               Win32Call.msg "IDAStealth: Error while writing to process (KillAntiAttach)\n",
               Win32Call.VirtualProtectEx 0x7C4 0x7C901000 0x7A000 0x20 false,
               Win32Call.CloseHandle 0x7C4,
               Win32Call.origDebugActiveProcess 1234] })
    ∧ freshTarget.protection = 0x20 := by
  decide

/-- C7, the claim as written, fails: when `OpenProcess` fails the hook adds no
diagnostic message. -/
theorem not_every_failing_step_reports : ¬ EveryFailingStepReports := by
  intro hclaim
  have h := hclaim win32OpenFails 1234 freshTarget ntdllHeader (by decide) (by decide)
    (Or.inl (by decide))
  revert h
  decide

/-- C7 as amended: in `DebugActiveProcessHook`, with the module headers read, the
only failing sub-step that emits a diagnostic message is the remote write, which
emits exactly one; a failure to open the target process and a refused protection
change emit none, and neither does a run in which every step succeeds. -/
theorem DebugActiveProcessHook_reports_only_write_failure
    (w : WinConstants) (os : Win32) (dwProcessId : Nat) (t : Target)
    (hdr : IMAGE_OPTIONAL_HEADER)
    (hinv : os.GetModuleHandle "ntdll.dll" ≠ w.INVALID_HANDLE_VALUE)
    (hhdr : os.peHeaders (os.GetModuleHandle "ntdll.dll") = some hdr) :
    (os.OpenProcess w.PROCESS_ALL_ACCESS false dwProcessId = 0 →
      diagnostics (DebugActiveProcessHook w os dwProcessId t).2.calls = diagnostics t.calls)
    ∧ (os.OpenProcess w.PROCESS_ALL_ACCESS false dwProcessId ≠ 0 →
      os.protectGranted (os.OpenProcess w.PROCESS_ALL_ACCESS false dwProcessId)
        ((hdr.BaseOfCode + hdr.ImageBase) % 2 ^ 32) hdr.SizeOfCode w.PAGE_READWRITE = false →
      diagnostics (DebugActiveProcessHook w os dwProcessId t).2.calls = diagnostics t.calls)
    ∧ (os.OpenProcess w.PROCESS_ALL_ACCESS false dwProcessId ≠ 0 →
      os.protectGranted (os.OpenProcess w.PROCESS_ALL_ACCESS false dwProcessId)
        ((hdr.BaseOfCode + hdr.ImageBase) % 2 ^ 32) hdr.SizeOfCode w.PAGE_READWRITE = true →
      os.WriteProcessMemory (os.OpenProcess w.PROCESS_ALL_ACCESS false dwProcessId)
        ((hdr.BaseOfCode + hdr.ImageBase) % 2 ^ 32) ((hdr.BaseOfCode + hdr.ImageBase) % 2 ^ 32)
        hdr.SizeOfCode = false →
      diagnostics (DebugActiveProcessHook w os dwProcessId t).2.calls
        = diagnostics t.calls
            ++ ["IDAStealth: Error while writing to process (KillAntiAttach)\n"])
    ∧ (os.OpenProcess w.PROCESS_ALL_ACCESS false dwProcessId ≠ 0 →
      os.protectGranted (os.OpenProcess w.PROCESS_ALL_ACCESS false dwProcessId)
        ((hdr.BaseOfCode + hdr.ImageBase) % 2 ^ 32) hdr.SizeOfCode w.PAGE_READWRITE = true →
      os.WriteProcessMemory (os.OpenProcess w.PROCESS_ALL_ACCESS false dwProcessId)
        ((hdr.BaseOfCode + hdr.ImageBase) % 2 ^ 32) ((hdr.BaseOfCode + hdr.ImageBase) % 2 ^ 32)
        hdr.SizeOfCode = true →
      diagnostics (DebugActiveProcessHook w os dwProcessId t).2.calls = diagnostics t.calls) := by
  refine ⟨?_, ?_, ?_, ?_⟩
  · intro hopen
    simp [DebugActiveProcessHook, Target.log, hinv, hhdr, hopen, diagnostics_append, diagnostics]
  · intro hopen hprot
    simp only [Nat.reducePow] at hprot
    simp [DebugActiveProcessHook, VirtualProtectEx, Target.log, hinv, hhdr, hopen, hprot,
      diagnostics_append, diagnostics]
  · intro hopen hprot hwrite
    simp only [Nat.reducePow] at hprot hwrite
    simp [DebugActiveProcessHook, VirtualProtectEx, Target.log, hinv, hhdr, hopen, hprot, hwrite,
      diagnostics_append, diagnostics]
  · intro hopen hprot hwrite
    simp only [Nat.reducePow] at hprot hwrite
    simp [DebugActiveProcessHook, VirtualProtectEx, Target.log, hinv, hhdr, hopen, hprot, hwrite,
      diagnostics_append, diagnostics]

/-- C7 as amended, on a run where `OpenProcess` fails (no message), a run where
the protection change is refused (no message) and a run where the remote write
fails (one message). -/
theorem DebugActiveProcessHook_reports_only_write_failure_witness :
    diagnostics (DebugActiveProcessHook winSdk win32OpenFails 1234 freshTarget).2.calls
      = diagnostics freshTarget.calls
    ∧ diagnostics (DebugActiveProcessHook winSdk win32ProtectFails 1234 freshTarget).2.calls
      = diagnostics freshTarget.calls
    ∧ diagnostics (DebugActiveProcessHook winSdk win32WriteFails 1234 freshTarget).2.calls
      = diagnostics freshTarget.calls
          ++ ["IDAStealth: Error while writing to process (KillAntiAttach)\n"] :=
  ⟨(DebugActiveProcessHook_reports_only_write_failure winSdk win32OpenFails 1234 freshTarget
      ntdllHeader (by decide) (by decide)).1 (by decide),
    (DebugActiveProcessHook_reports_only_write_failure winSdk win32ProtectFails 1234 freshTarget
      ntdllHeader (by decide) (by decide)).2.1 (by decide) (by decide),
    (DebugActiveProcessHook_reports_only_write_failure winSdk win32WriteFails 1234 freshTarget
      ntdllHeader (by decide) (by decide)).2.2.1 (by decide) (by decide) (by decide)⟩

end IDAStealth
